import Mathlib

/-!
Shallow embedding of the incident-reporting logic of `src/app.py`
(class `JamAIIntegration` and `create_incident_report`) together with a
spec-modelled incident store (`update_status`), and theorems settling the
frozen claims about this program.

Conventions of the embedding:
- Python dicts become association lists in insertion order; `dict.get`
  becomes `alookup` with an explicit default.
- `np.random` state becomes an explicit `Rng` value threaded through the
  functions that draw from it; `np.random.randint(lo, hi)` draws a number
  in `[lo, hi)` from the stream.
- `functools.lru_cache(maxsize=128)` on `analyze_emergency` becomes an
  explicit cache value (a list in most-recently-used-first order) threaded
  through the cached call.
- `datetime.now()` becomes an explicit `DateTime` argument.
-/

/-- Explicit model of the global `np.random` generator state: an infinite
stream of raw draws and a current position. -/
structure Rng where
  seq : Nat → Nat
  pos : Nat

/-- `np.random.randint(lo, hi)`: a value in `[lo, hi)` taken from the
stream, advancing the generator. -/
def randint (lo hi : Nat) (r : Rng) : Nat × Rng :=
  (lo + r.seq r.pos % (hi - lo), ⟨r.seq, r.pos + 1⟩)

/-- Values occurring in the analysis dict built by `_mock_analyze`. -/
inductive Value where
  | str : String → Value
  | nat : Nat → Value
  | strList : List String → Value
deriving DecidableEq

/-- A Python dict with string keys, in insertion order. -/
abbrev AnalysisDict := List (String × Value)

/-- First-match association-list lookup: the embedding of `dict[k]` /
`dict.get(k)` (dict keys are unique, so first match is the match). -/
def alookup {α β : Type} [DecidableEq α] : List (α × β) → α → Option β
  | [], _ => none
  | (k1, v) :: rest, k => if k1 = k then some v else alookup rest k

/-- A calendar timestamp as read from `datetime.now()`, at the
one-second resolution used by `strftime('%Y%m%d%H%M%S')`. -/
structure DateTime where
  year : Nat
  month : Nat
  day : Nat
  hour : Nat
  minute : Nat
  second : Nat
deriving DecidableEq

/-- Zero-padding to two digits, as `strftime` does for `%m%d%H%M%S`. -/
def pad2 (n : Nat) : String :=
  if n < 10 then "0" ++ toString n else toString n

/-- `datetime.strftime('%Y%m%d%H%M%S')`. -/
def DateTime.strftimeYmdHMS (t : DateTime) : String :=
  toString t.year ++ pad2 t.month ++ pad2 t.day ++
    pad2 t.hour ++ pad2 t.minute ++ pad2 t.second

/-- Values occurring in the report dict built by `create_incident_report`
(and in its `incident_data` input). -/
inductive RValue where
  | str : String → RValue
  | nat : Nat → RValue
  | strList : List String → RValue
  | dt : DateTime → RValue
  | analysis : AnalysisDict → RValue
deriving DecidableEq

/-- Python `str.lower()` (the inputs compared in this program are ASCII,
where `Char.toLower` agrees with Python). -/
def strLower (s : String) : String := ⟨s.data.map Char.toLower⟩

/-- The `severity_map["other"]` entry of `_mock_analyze`. -/
def severity_other : Nat × String := (5, "MEDIUM")

/-- The `severity_map` dict literal of `_mock_analyze`:
type → (severity, priority). -/
def severity_map : List (String × (Nat × String)) :=
  [("medical", (8, "HIGH")),
   ("fire", (9, "CRITICAL")),
   ("accident", (7, "HIGH")),
   ("weather", (6, "MEDIUM")),
   ("other", severity_other)]

/-- `severity_map.get(emergency_type.lower(), severity_map["other"])`. -/
def severity_entry (emergency_type : String) : Nat × String :=
  (alookup severity_map (strLower emergency_type)).getD severity_other

/-- The `services_map["other"]` entry of `_get_recommended_services`. -/
def services_other : List String :=
  ["Police", "Paramedics", "Fire Department"]

/-- The `services_map` dict literal of `_get_recommended_services`. -/
def services_map : List (String × List String) :=
  [("medical", ["Ambulance", "EMT", "Hospital Coordination"]),
   ("fire", ["Fire Department", "Hazmat Team", "Evacuation Support"]),
   ("accident", ["Police", "Ambulance", "Traffic Control"]),
   ("weather", ["Weather Service", "Emergency Management", "Public Alert"]),
   ("other", services_other)]

/-- `JamAIIntegration._get_recommended_services`. -/
def get_recommended_services (emergency_type : String) : List String :=
  (alookup services_map (strLower emergency_type)).getD services_other

/-- The `risk_keywords` dict literal of `_extract_risk_factors`. -/
def risk_keywords : List (String × String) :=
  [("unconscious", "Loss of consciousness"),
   ("bleeding", "Severe bleeding"),
   ("fire", "Active fire hazard"),
   ("smoke", "Smoke inhalation risk"),
   ("trapped", "People potentially trapped"),
   ("hazardous", "Hazardous materials present")]

/-- Does `pat` occur at the head of `l`? -/
def matchesAt : List Char → List Char → Bool
  | [], _ => true
  | _ :: _, [] => false
  | a :: as, b :: bs => a == b && matchesAt as bs

/-- Does `needle` occur somewhere in the character list? -/
def substrAux (needle : List Char) : List Char → Bool
  | [] => matchesAt needle []
  | c :: rest => matchesAt needle (c :: rest) || substrAux needle rest

/-- Python substring containment: `needle in haystack`. -/
def str_in (needle haystack : String) : Bool :=
  substrAux needle.data haystack.data

/-- The loop condition of `_extract_risk_factors`:
`keyword.lower() in description.lower()`. -/
def keyword_hits (description : String) (kr : String × String) : Bool :=
  str_in (strLower kr.1) (strLower description)

/-- `JamAIIntegration._extract_risk_factors`: the `for` loop appending the
mapped risk phrase for each matching keyword, then the
`risks if risks else [...]` default. -/
def extract_risk_factors (description : String) : List String :=
  let risks := risk_keywords.foldl
    (fun acc kr => if keyword_hits description kr then acc ++ [kr.2] else acc) []
  if risks = [] then ["Initial assessment required"] else risks

/-- `JamAIIntegration._mock_analyze`: the severity-map entry for the
lowered type (defaulting to the `"other"` entry), updated with the derived
fields, in the dict's insertion order.  The two `np.random.randint` draws
(response time, then confidence) advance the generator. -/
def mock_analyze (emergency_type description : String) (r : Rng) :
    AnalysisDict × Rng :=
  let e := severity_entry emergency_type
  let rt := randint 5 20 r
  let conf := randint 75 99 rt.2
  ([("severity", .nat e.1),
    ("priority", .str e.2),
    ("emergency_type", .str emergency_type),
    ("description", .str description),
    ("recommended_services", .strList (get_recommended_services emergency_type)),
    ("estimated_response_time", .str (toString rt.1 ++ " minutes")),
    ("risk_factors", .strList (extract_risk_factors description)),
    ("ai_confidence", .str (toString conf.1 ++ "%"))], conf.2)

/-- `JamAIIntegration.predict_resources`: five fresh random draws. -/
def predict_resources (r : Rng) : List (String × Value) × Rng :=
  let a := randint 1 4 r
  let f := randint 0 3 a.2
  let p := randint 1 3 f.2
  let pers := randint 5 20 p.2
  let cost := randint 1000 50000 pers.2
  ([("ambulances", .nat a.1),
    ("fire_trucks", .nat f.1),
    ("police_units", .nat p.1),
    ("personnel", .nat pers.1),
    ("estimated_cost", .str ("$" ++ toString cost.1))], cost.2)

/-- The body of `analyze_emergency` with the outcome of its `try` block
made explicit: `.ok` carries the value computed inside the `try`, `.error`
stands for an exception raised there.  The `except` branch logs and
returns `_mock_analyze` again. -/
def analyze_emergency_run (tryOutcome : Except String (AnalysisDict × Rng))
    (emergency_type description : String) (r : Rng) : AnalysisDict × Rng :=
  match tryOutcome with
  | .ok res => res
  | .error _ => mock_analyze emergency_type description r

/-- `analyze_emergency` on the actual (exception-free) path: the `try`
block computes `_mock_analyze` and succeeds. -/
def analyze_emergency_body (emergency_type description : String) (r : Rng) :
    AnalysisDict × Rng :=
  analyze_emergency_run (.ok (mock_analyze emergency_type description r))
    emergency_type description r

/-- The `lru_cache(maxsize=128)` state on `analyze_emergency`, keyed by the
argument pair, most recently used first. -/
abbrev Cache := List ((String × String) × AnalysisDict)

/-- On a cache hit, `lru_cache` moves the entry to the front of the use
order. -/
def cacheTouch (c : Cache) (k : String × String) (v : AnalysisDict) : Cache :=
  (k, v) :: c.filter (fun e => decide (e.1 ≠ k))

/-- On a cache miss, `lru_cache` inserts the new entry, evicting the least
recently used beyond `maxsize=128`. -/
def cacheInsert (c : Cache) (k : String × String) (v : AnalysisDict) : Cache :=
  ((k, v) :: c).take 128

/-- The cached `analyze_emergency` as called through
`st.session_state.jamai`: a hit returns the stored dict without running
the body (the generator is not consumed); a miss runs the body and stores
the result. -/
def analyze_emergency_cached (c : Cache) (emergency_type description : String)
    (r : Rng) : AnalysisDict × Cache × Rng :=
  match alookup c (emergency_type, description) with
  | some v => (v, cacheTouch c (emergency_type, description) v, r)
  | none =>
      let res := analyze_emergency_body emergency_type description r
      (res.1, cacheInsert c (emergency_type, description) res.1, res.2)

/-- `incident_data.get(k, default)` where the call site needs a string
(the dashboard form only ever stores strings at these keys). -/
def getStrD (data : List (String × RValue)) (k d : String) : String :=
  match alookup data k with
  | some (.str s) => s
  | _ => d

/-- The status vocabulary of the dashboard (the Tab-2 status filter). -/
def status_options : List String :=
  ["PENDING", "RESPONDING", "ON_SCENE", "RESOLVED"]

/-- `create_incident_report`: builds the report dict in insertion order;
the id is `"INC-" + now.strftime('%Y%m%d%H%M%S')`, the status the literal
`"PENDING"`, and the analysis comes from the cached `analyze_emergency`
applied to `get("type", "other")` and `get("description", "")`. -/
def create_incident_report (data : List (String × RValue)) (now : DateTime)
    (c : Cache) (r : Rng) : List (String × RValue) × Cache × Rng :=
  let res := analyze_emergency_cached c
    (getStrD data "type" "other") (getStrD data "description" "") r
  ([("id", .str ("INC-" ++ now.strftimeYmdHMS)),
    ("timestamp", .dt now),
    ("type", (alookup data "type").getD (.str "Unknown")),
    ("location", (alookup data "location").getD (.str "TBD")),
    ("description", (alookup data "description").getD (.str "")),
    ("reporter", (alookup data "reporter").getD (.str "Anonymous")),
    ("phone", (alookup data "phone").getD (.str "N/A")),
    ("status", .str "PENDING"),
    ("analysis", .analysis res.1)], res.2.1, res.2.2)

/-- Modelled from the spec: the Incident Record Store of the REST façade
variant (its `update_status` operation has no implementation under `src/`;
only the two dashboard files are present).  An incident record keeps the
originating report, the current status, and the two timestamps. -/
structure StoredIncident where
  report : List (String × RValue)
  status : String
  created_at : Nat
  updated_at : Nat
deriving DecidableEq

/-- Modelled from the spec: the error taxonomy of the store operations. -/
inductive UpdateError where
  | NotFound
  | InvalidStatus
deriving DecidableEq

/-- Modelled from the spec: the four status enum values. -/
def valid_statuses : List String :=
  ["ACTIVE", "IN_PROGRESS", "RESOLVED", "CANCELLED"]

/-- Overwriting the binding of a key in the store (assignment to a dict
slot): every binding of the key is replaced, others are untouched. -/
def storeReplace (store : List (String × StoredIncident)) (incident_id : String)
    (v : StoredIncident) : List (String × StoredIncident) :=
  match store with
  | [] => []
  | (k, w) :: rest =>
      if k = incident_id
      then (k, v) :: storeReplace rest incident_id v
      else (k, w) :: storeReplace rest incident_id v

/-- Modelled from the spec: `update_status(incident_id, new_status)` fails
with NotFound if the id is missing, fails with InvalidStatus if
`new_status` is not one of the four enum values (leaving the store as it
was); otherwise overwrites status and updated_at. -/
def update_status (store : List (String × StoredIncident))
    (incident_id new_status : String) (now : Nat) :
    Except UpdateError Unit × List (String × StoredIncident) :=
  match alookup store incident_id with
  | none => (.error .NotFound, store)
  | some inc =>
      if new_status ∈ valid_statuses then
        (.ok (), storeReplace store incident_id
          { inc with status := new_status, updated_at := now })
      else (.error .InvalidStatus, store)

/-- A cache state is valid when every stored entry is a `_mock_analyze`
result for its key (which is what the cached call stores). -/
def CacheValid (c : Cache) : Prop :=
  ∀ k v, alookup c k = some v → ∃ r, v = (mock_analyze k.1 k.2 r).1

/-- A generator stream that is constantly 0. -/
def rng0 : Rng := ⟨fun _ => 0, 0⟩

/-- A generator stream that is constantly 1. -/
def rng1 : Rng := ⟨fun _ => 1, 0⟩

/-- The identity generator stream: draw n is n. -/
def rngId : Rng := ⟨fun n => n, 0⟩

/-- A fixed wall-clock second. -/
def t0 : DateTime := ⟨2025, 1, 1, 12, 0, 0⟩

/-- A concrete stored incident. -/
def inc0 : StoredIncident := ⟨[], "ACTIVE", 0, 0⟩

/-- A concrete one-incident store. -/
def store0 : List (String × StoredIncident) := [("INC-1", inc0)]

/-- A concrete one-entry cache holding a genuine `_mock_analyze` result. -/
def cache0 : Cache := [(("fire", "x"), (mock_analyze "fire" "x" rng0).1)]

lemma alookup_getD_mem_or {α β : Type} [DecidableEq α]
    (m : List (α × β)) (k : α) (d : β) :
    (alookup m k).getD d ∈ m.map Prod.snd ∨ (alookup m k).getD d = d := by
  induction m with
  | nil => right; rfl
  | cons hd tl ih =>
      by_cases h : hd.1 = k
      · left; simp [alookup, h]
      · rcases ih with ih | ih
        · left; simp only [alookup, h, if_false, List.map_cons]
          exact List.mem_cons_of_mem _ ih
        · right; simpa [alookup, h] using ih

lemma severity_entry_mem (t : String) :
    severity_entry t ∈ severity_map.map Prod.snd := by
  unfold severity_entry
  rcases alookup_getD_mem_or severity_map (strLower t) severity_other with h | h
  · exact h
  · rw [h]; decide

lemma severity_entry_val_mem (t : String) :
    (severity_entry t).1 ∈ ([8, 9, 7, 6, 5] : List Nat) := by
  have h := severity_entry_mem t
  simp only [severity_map, severity_other, List.map_cons, List.map_nil,
    List.mem_cons, List.not_mem_nil, or_false] at h
  rcases h with h | h | h | h | h <;> rw [h] <;> decide

lemma severity_entry_prio_mem (t : String) :
    (severity_entry t).2 ∈ (["CRITICAL", "HIGH", "MEDIUM"] : List String) := by
  have h := severity_entry_mem t
  simp only [severity_map, severity_other, List.map_cons, List.map_nil,
    List.mem_cons, List.not_mem_nil, or_false] at h
  rcases h with h | h | h | h | h <;> rw [h] <;> decide

lemma services_mem (t : String) :
    get_recommended_services t ∈ services_map.map Prod.snd := by
  unfold get_recommended_services
  rcases alookup_getD_mem_or services_map (strLower t) services_other with h | h
  · exact h
  · rw [h]; decide

lemma services_ne_nil (t : String) : get_recommended_services t ≠ [] := by
  have h := services_mem t
  simp only [services_map, services_other, List.map_cons, List.map_nil,
    List.mem_cons, List.not_mem_nil, or_false] at h
  rcases h with h | h | h | h | h <;> rw [h] <;> decide

lemma mock_lookup_severity (t d : String) (r : Rng) :
    alookup (mock_analyze t d r).1 "severity"
      = some (.nat (severity_entry t).1) := rfl

lemma mock_lookup_priority (t d : String) (r : Rng) :
    alookup (mock_analyze t d r).1 "priority"
      = some (.str (severity_entry t).2) := rfl

lemma mock_lookup_type (t d : String) (r : Rng) :
    alookup (mock_analyze t d r).1 "emergency_type" = some (.str t) := rfl

lemma mock_lookup_description (t d : String) (r : Rng) :
    alookup (mock_analyze t d r).1 "description" = some (.str d) := rfl

lemma mock_lookup_services (t d : String) (r : Rng) :
    alookup (mock_analyze t d r).1 "recommended_services"
      = some (.strList (get_recommended_services t)) := rfl

lemma mock_lookup_risks (t d : String) (r : Rng) :
    alookup (mock_analyze t d r).1 "risk_factors"
      = some (.strList (extract_risk_factors d)) := rfl

lemma mock_severity_bounds (t d : String) (r : Rng) :
    ∃ s, alookup (mock_analyze t d r).1 "severity" = some (.nat s) ∧
      5 ≤ s ∧ s ≤ 9 := by
  refine ⟨(severity_entry t).1, mock_lookup_severity t d r, ?_⟩
  have h := severity_entry_val_mem t
  simp only [List.mem_cons, List.not_mem_nil, or_false] at h
  rcases h with h | h | h | h | h <;> rw [h] <;> exact ⟨by norm_num, by norm_num⟩

lemma cached_is_mock (c : Cache) (t d : String) (r : Rng) (hc : CacheValid c) :
    ∃ r2, (analyze_emergency_cached c t d r).1 = (mock_analyze t d r2).1 := by
  rcases h : alookup c (t, d) with _ | v
  · exact ⟨r, by simp [analyze_emergency_cached, h, analyze_emergency_body,
      analyze_emergency_run]⟩
  · obtain ⟨r2, hv⟩ := hc (t, d) v h
    exact ⟨r2, by simp [analyze_emergency_cached, h, hv]⟩

lemma foldl_keyword_append (p : String × String → Bool) (l : List (String × String)) :
    ∀ acc : List String,
      l.foldl (fun a kr => if p kr then a ++ [kr.2] else a) acc
        = acc ++ (l.filter p).map Prod.snd := by
  induction l with
  | nil => intro acc; simp
  | cons hd tl ih =>
      intro acc
      by_cases h : p hd
      · simp [List.foldl_cons, List.filter_cons, h, ih, List.append_assoc]
      · simp [List.foldl_cons, List.filter_cons, h, ih]

lemma alookup_eq_none_forall {α β : Type} [DecidableEq α]
    (m : List (α × β)) (k : α) (h : alookup m k = none) :
    ∀ p ∈ m, p.1 ≠ k := by
  induction m with
  | nil => intro p hp; cases hp
  | cons hd tl ih =>
      obtain ⟨k1, v⟩ := hd
      by_cases hk : k1 = k
      · simp only [alookup, if_pos hk] at h
        exact Option.noConfusion h
      · intro p hp
        rcases List.mem_cons.mp hp with rfl | hp2
        · exact hk
        · exact ih (by simpa only [alookup, if_neg hk] using h) p hp2

lemma alookup_storeReplace (store : List (String × StoredIncident))
    (incident_id : String) (v : StoredIncident) :
    alookup (storeReplace store incident_id v) incident_id
      = (alookup store incident_id).map (fun _ => v) := by
  induction store with
  | nil => rfl
  | cons hd tl ih =>
      obtain ⟨k1, w⟩ := hd
      by_cases h : k1 = incident_id
      · simp [storeReplace, alookup, h]
      · simp [storeReplace, alookup, h, ih]

/-- Claim C9: for every emergency_type and description string (unknown
types falling to the "other" entry), the analysis result of
`_mock_analyze` has severity in {5,6,7,8,9}, priority in
{CRITICAL, HIGH, MEDIUM}, and a non-empty recommended_services list drawn
from the static services table. -/
theorem claim_c9_analysis_invariants (etype desc : String) (r : Rng) :
    (∃ s, alookup (mock_analyze etype desc r).1 "severity" = some (.nat s) ∧
        s ∈ ([5, 6, 7, 8, 9] : List Nat)) ∧
    (∃ p, alookup (mock_analyze etype desc r).1 "priority" = some (.str p) ∧
        p ∈ (["CRITICAL", "HIGH", "MEDIUM"] : List String)) ∧
    (∃ l, alookup (mock_analyze etype desc r).1 "recommended_services"
        = some (.strList l) ∧ l ≠ [] ∧ l ∈ services_map.map Prod.snd) := by
  refine ⟨⟨(severity_entry etype).1, mock_lookup_severity etype desc r, ?_⟩,
          ⟨(severity_entry etype).2, mock_lookup_priority etype desc r,
            severity_entry_prio_mem etype⟩,
          ⟨get_recommended_services etype, mock_lookup_services etype desc r,
            services_ne_nil etype, services_mem etype⟩⟩
  have h := severity_entry_val_mem etype
  simp only [List.mem_cons, List.not_mem_nil, or_false] at h ⊢
  tauto

/-- Claim C10: for every description, `_extract_risk_factors` returns a
non-empty list: exactly the mapped risk phrases of the keywords occurring
case-insensitively in the description, and the single default entry when
none occurs. -/
theorem claim_c10_risk_factors (d : String) :
    extract_risk_factors d ≠ [] ∧
    extract_risk_factors d =
      (if risk_keywords.filter (keyword_hits d) = []
       then ["Initial assessment required"]
       else (risk_keywords.filter (keyword_hits d)).map Prod.snd) := by
  have he : extract_risk_factors d =
      (if (risk_keywords.filter (keyword_hits d)).map Prod.snd = []
       then ["Initial assessment required"]
       else (risk_keywords.filter (keyword_hits d)).map Prod.snd) := by
    unfold extract_risk_factors
    rw [foldl_keyword_append]
    rw [List.nil_append]
  constructor
  · rw [he]
    by_cases hf : (risk_keywords.filter (keyword_hits d)).map Prod.snd = []
    · rw [if_pos hf]; simp
    · rw [if_neg hf]; exact hf
  · rw [he]
    by_cases hf : risk_keywords.filter (keyword_hits d) = []
    · rw [if_pos (by rw [hf]; rfl), if_pos hf]
    · rw [if_neg (by simpa [List.map_eq_nil_iff] using hf), if_neg hf]

/-- Claim C7 (amended): `_mock_analyze` is deterministic in its severity,
priority, emergency_type, description, recommended_services and
risk_factors fields — two invocations with the same arguments agree there
regardless of the generator state; its estimated_response_time and
ai_confidence fields (and all of `predict_resources`) are drawn from the
random stream and may differ between invocations. -/
theorem claim_c7_deterministic_fields (etype desc : String) (r1 r2 : Rng) :
    alookup (mock_analyze etype desc r1).1 "severity"
      = alookup (mock_analyze etype desc r2).1 "severity" ∧
    alookup (mock_analyze etype desc r1).1 "priority"
      = alookup (mock_analyze etype desc r2).1 "priority" ∧
    alookup (mock_analyze etype desc r1).1 "emergency_type"
      = alookup (mock_analyze etype desc r2).1 "emergency_type" ∧
    alookup (mock_analyze etype desc r1).1 "description"
      = alookup (mock_analyze etype desc r2).1 "description" ∧
    alookup (mock_analyze etype desc r1).1 "recommended_services"
      = alookup (mock_analyze etype desc r2).1 "recommended_services" ∧
    alookup (mock_analyze etype desc r1).1 "risk_factors"
      = alookup (mock_analyze etype desc r2).1 "risk_factors" :=
  ⟨rfl, rfl, rfl, rfl, rfl, rfl⟩

/-- Claim C7 counterexample: two invocations with the same severity value
"high" (and the same empty description) at different generator states give
different analysis dicts (the response-time field differs), and
`predict_resources` likewise differs between invocations; so the claimed
equality of results in every field is false. -/
theorem claim_c7_counterexample :
    (mock_analyze "high" "" rng0).1 ≠ (mock_analyze "high" "" rng1).1 ∧
    (predict_resources rng0).1 ≠ (predict_resources rng1).1 := by
  decide

/-- Claim C1 (amended): the four severity values low, medium, high,
critical are not keys of `_mock_analyze`'s tables, so each maps to the
static "other" entry: severity 5 and priority MEDIUM (there is no
risk-score field and no value 95 anywhere in the result), and the resource
list is the "other" entry of the static services table. -/
theorem claim_c1_fallback_other_entry (sev : String)
    (hsev : sev ∈ (["low", "medium", "high", "critical"] : List String))
    (desc : String) (r : Rng) :
    alookup (mock_analyze sev desc r).1 "severity" = some (.nat 5) ∧
    alookup (mock_analyze sev desc r).1 "priority" = some (.str "MEDIUM") ∧
    alookup (mock_analyze sev desc r).1 "recommended_services"
      = some (.strList ["Police", "Paramedics", "Fire Department"]) ∧
    ∀ p ∈ (mock_analyze sev desc r).1, p.2 ≠ Value.nat 95 := by
  simp only [List.mem_cons, List.not_mem_nil, or_false] at hsev
  have hs : severity_entry sev = (5, "MEDIUM") := by
    rcases hsev with h | h | h | h <;> subst h <;> decide
  have hsrv : get_recommended_services sev
      = ["Police", "Paramedics", "Fire Department"] := by
    rcases hsev with h | h | h | h <;> subst h <;> decide
  refine ⟨?_, ?_, ?_, ?_⟩
  · rw [mock_lookup_severity, hs]
  · rw [mock_lookup_priority, hs]
  · rw [mock_lookup_services, hsrv]
  · intro p hp
    simp only [mock_analyze, List.mem_cons, List.not_mem_nil, or_false] at hp
    rcases hp with h | h | h | h | h | h | h | h <;> subst h <;> simp [hs]

/-- Claim C1 witness: the amended statement holds at severity "critical"
with an empty description and the constant-0 generator. -/
theorem claim_c1_witness :
    ("critical" ∈ (["low", "medium", "high", "critical"] : List String)) ∧
    (alookup (mock_analyze "critical" "" rng0).1 "severity" = some (.nat 5) ∧
     alookup (mock_analyze "critical" "" rng0).1 "priority"
       = some (.str "MEDIUM") ∧
     alookup (mock_analyze "critical" "" rng0).1 "recommended_services"
       = some (.strList ["Police", "Paramedics", "Fire Department"]) ∧
     ∀ p ∈ (mock_analyze "critical" "" rng0).1, p.2 ≠ Value.nat 95) :=
  ⟨by decide, claim_c1_fallback_other_entry "critical" (by decide) "" rng0⟩

/-- Claim C1 counterexample: at the severity value "critical" the analysis
result carries no risk score 95 in any field — its severity field is 5 —
so the claimed table {critical:95, high:75, medium:50, low:25} does not
describe this code. -/
theorem claim_c1_counterexample :
    (∀ p ∈ (mock_analyze "critical" "" rng1).1, p.2 ≠ Value.nat 95) ∧
    alookup (mock_analyze "critical" "" rng1).1 "severity"
      = some (.nat 5) := by
  decide

/-- Claim C4: when the try block of `analyze_emergency` fails with an
exception, the call returns the `_mock_analyze` fallback result instead of
propagating the error (the return type carries no error case, so remote
failures never surface), and a successful try block returns its value
unchanged. -/
theorem claim_c4_failure_returns_fallback (e : String)
    (etype desc : String) (r : Rng) :
    analyze_emergency_run (.error e) etype desc r
      = mock_analyze etype desc r ∧
    analyze_emergency_run (.ok (mock_analyze etype desc r)) etype desc r
      = mock_analyze etype desc r :=
  ⟨rfl, rfl⟩

/-- Claim C8 (amended): `analyze_emergency` is memoized by
`functools.lru_cache(maxsize=128)` — any call whose argument pair is in
the cache returns the previously cached result, only refreshing its
position in the use order, and does not re-perform the computation (the
random generator is not consumed). -/
theorem claim_c8_cache_hit_returns_cached (c : Cache) (etype desc : String)
    (r : Rng) (a : AnalysisDict)
    (h : alookup c (etype, desc) = some a) :
    analyze_emergency_cached c etype desc r
      = (a, cacheTouch c (etype, desc) a, r) := by
  simp [analyze_emergency_cached, h]

/-- Claim C8 witness: the amended statement at a one-entry cache holding
the analysis of ("fire", "x"). -/
theorem claim_c8_witness :
    alookup cache0 ("fire", "x") = some (mock_analyze "fire" "x" rng0).1 ∧
    analyze_emergency_cached cache0 "fire" "x" rng1
      = ((mock_analyze "fire" "x" rng0).1,
         cacheTouch cache0 ("fire", "x") (mock_analyze "fire" "x" rng0).1,
         rng1) :=
  ⟨rfl, claim_c8_cache_hit_returns_cached cache0 "fire" "x" rng1
    ((mock_analyze "fire" "x" rng0).1) rfl⟩

/-- Claim C8 counterexample: starting from an empty cache, a second call
of the cached `analyze_emergency` with identical arguments returns exactly
the first call's result, and that result differs from what re-performing
the computation at the current generator state would produce — so the
claim that every call re-performs the computation with no caching is
false. -/
theorem claim_c8_counterexample :
    ((analyze_emergency_cached
        (analyze_emergency_cached [] "fire" "x" rngId).2.1 "fire" "x"
        (analyze_emergency_cached [] "fire" "x" rngId).2.2).1
      = (analyze_emergency_cached [] "fire" "x" rngId).1) ∧
    ((analyze_emergency_cached
        (analyze_emergency_cached [] "fire" "x" rngId).2.1 "fire" "x"
        (analyze_emergency_cached [] "fire" "x" rngId).2.2).1
      ≠ (mock_analyze "fire" "x"
          (analyze_emergency_cached [] "fire" "x" rngId).2.2).1) := by
  decide

/-- Claim C2 (amended): the report composed by `create_incident_report`
has no priority_score field at all; the nearest numeric score — the
severity inside the attached analysis — is always between 5 and 9, hence
within [0,100]. -/
theorem claim_c2_no_priority_score (data : List (String × RValue))
    (now : DateTime) (c : Cache) (r : Rng) (hc : CacheValid c) :
    alookup (create_incident_report data now c r).1 "priority_score"
      = none ∧
    (∀ p ∈ (create_incident_report data now c r).1,
      p.1 ≠ "priority_score") ∧
    ∃ a s, alookup (create_incident_report data now c r).1 "analysis"
        = some (.analysis a) ∧
      alookup a "severity" = some (.nat s) ∧ s ≤ 100 := by
  refine ⟨rfl, alookup_eq_none_forall _ _ rfl, ?_⟩
  · obtain ⟨r2, ha⟩ := cached_is_mock c (getStrD data "type" "other")
      (getStrD data "description" "") r hc
    obtain ⟨s, hs, h5, h9⟩ := mock_severity_bounds
      (getStrD data "type" "other") (getStrD data "description" "") r2
    exact ⟨_, s, rfl, by rw [ha]; exact hs, by omega⟩

/-- Claim C2 witness: the amended statement at the empty input dict, a
fixed clock second, the empty (trivially valid) cache and the constant-0
generator. -/
theorem claim_c2_witness :
    CacheValid [] ∧
    (alookup (create_incident_report [] t0 [] rng0).1 "priority_score"
        = none ∧
     (∀ p ∈ (create_incident_report [] t0 [] rng0).1,
       p.1 ≠ "priority_score") ∧
     ∃ a s, alookup (create_incident_report [] t0 [] rng0).1 "analysis"
         = some (.analysis a) ∧
       alookup a "severity" = some (.nat s) ∧ s ≤ 100) :=
  ⟨fun _ _ h => Option.noConfusion h,
   claim_c2_no_priority_score [] t0 [] rng0
     (fun _ _ h => Option.noConfusion h)⟩

/-- Claim C2 counterexample: at a concrete submission the composed
response has no priority_score key at all, so the claim that its
priority_score field lies in [0,100] is false — the field does not
exist. -/
theorem claim_c2_counterexample :
    alookup (create_incident_report [] t0 [] rng0).1 "priority_score"
      = none ∧
    ∀ p ∈ (create_incident_report [] t0 [] rng0).1,
      p.1 ≠ "priority_score" := by
  decide

/-- Claim C3 (amended): every id produced by `create_incident_report` has
the form INC-<clock second of datetime.now(), %Y%m%d%H%M%S> with no
counter component, creation is total (never fails), and any two creations
that happen in the same clock second yield the same id — ids are not
unique. -/
theorem claim_c3_id_format (d1 d2 : List (String × RValue)) (now : DateTime)
    (c1 c2 : Cache) (r1 r2 : Rng) :
    alookup (create_incident_report d1 now c1 r1).1 "id"
      = some (.str ("INC-" ++ now.strftimeYmdHMS)) ∧
    alookup (create_incident_report d1 now c1 r1).1 "id"
      = alookup (create_incident_report d2 now c2 r2).1 "id" :=
  ⟨rfl, rfl⟩

/-- Claim C3 counterexample: two different creations in the same clock
second both get the id INC-20250101120000 — equal, with no counter suffix
— so uniqueness of ids across creations is false. -/
theorem claim_c3_counterexample :
    alookup (create_incident_report [] t0 [] rng0).1 "id"
      = some (.str "INC-20250101120000") ∧
    alookup (create_incident_report
        [("location", .str "elsewhere")] t0 [] rng1).1 "id"
      = some (.str "INC-20250101120000") := by
  decide

/-- Claim C5 (amended): every record composed by `create_incident_report`
is created with initial status PENDING, one of the dashboard's status
vocabulary {PENDING, RESPONDING, ON_SCENE, RESOLVED}. -/
theorem claim_c5_initial_status_pending (data : List (String × RValue))
    (now : DateTime) (c : Cache) (r : Rng) :
    alookup (create_incident_report data now c r).1 "status"
      = some (.str "PENDING") ∧
    "PENDING" ∈ status_options :=
  ⟨rfl, by decide⟩

/-- Claim C5 counterexample: a concrete created record has status
"PENDING", which is not among the four claimed enum values
{ACTIVE, IN_PROGRESS, RESOLVED, CANCELLED}. -/
theorem claim_c5_counterexample :
    alookup (create_incident_report [] t0 [] rng0).1 "status"
      = some (.str "PENDING") ∧
    "PENDING" ∉ valid_statuses := by
  decide

/-- Claim C6: `update_status` fails with NotFound when the id is absent,
fails with InvalidStatus when the new status is not one of the four enum
values — leaving the store unchanged — and otherwise succeeds,
overwriting status and updated_at of the addressed incident. -/
theorem claim_c6_update_status (store : List (String × StoredIncident))
    (incident_id new_status : String) (now : Nat) :
    (alookup store incident_id = none →
      update_status store incident_id new_status now
        = (.error .NotFound, store)) ∧
    (∀ inc, alookup store incident_id = some inc →
      new_status ∉ valid_statuses →
      update_status store incident_id new_status now
        = (.error .InvalidStatus, store)) ∧
    (∀ inc, alookup store incident_id = some inc →
      new_status ∈ valid_statuses →
      (update_status store incident_id new_status now).1 = .ok () ∧
      alookup (update_status store incident_id new_status now).2 incident_id
        = some { inc with status := new_status, updated_at := now }) := by
  refine ⟨?_, ?_, ?_⟩
  · intro h
    simp [update_status, h]
  · intro inc h hns
    simp [update_status, h, hns]
  · intro inc h hns
    have heq : update_status store incident_id new_status now
        = (.ok (), storeReplace store incident_id
            { inc with status := new_status, updated_at := now }) := by
      simp [update_status, h, hns]
    rw [heq]
    exact ⟨rfl, by rw [alookup_storeReplace, h]; rfl⟩

/-- Claim C6 witness: the three behaviors at concrete stores — a missing
id, an invalid status "BOGUS" on a stored incident, and a valid update to
RESOLVED. -/
theorem claim_c6_witness :
    update_status [] "x" "ACTIVE" 0 = (.error .NotFound, []) ∧
    update_status store0 "INC-1" "BOGUS" 7
      = (.error .InvalidStatus, store0) ∧
    ((update_status store0 "INC-1" "RESOLVED" 7).1 = .ok () ∧
     alookup (update_status store0 "INC-1" "RESOLVED" 7).2 "INC-1"
       = some { inc0 with status := "RESOLVED", updated_at := 7 }) :=
  ⟨(claim_c6_update_status [] "x" "ACTIVE" 0).1 rfl,
   (claim_c6_update_status store0 "INC-1" "BOGUS" 7).2.1 inc0 rfl (by decide),
   (claim_c6_update_status store0 "INC-1" "RESOLVED" 7).2.2 inc0 rfl
     (by decide)⟩
